import Mathlib

/-!
# Verification of go-kinesis-writer

A shallow embedding of the `kinesiswriter` Go package: the delivery/retry
component (`flusher.Flush` / `flusher.putRecords` in `flusher.go`), the
ingress splitter and writer surface (`Writer.Write`, `Writer.Sync` in
`writer.go`), and the configuration defaults (`New` plus the option
functions).  Records are modelled as byte lists, the remote Kinesis client
as a function from the call index and the submitted records to a response,
and `Flush` is instrumented to also return the list of record batches it
handed to the remote client, so that call-count and call-content
properties can be stated.
-/

namespace KinesisWriter

/-- A record: an opaque byte sequence (one byte per `Nat`). -/
abbrev Rec := List Nat

/-- A transport/service-level error returned by the remote client itself
(the Go `error` second return of `KinesisClient.PutRecords`). -/
inductive TransErr where
  | err (msg : String)
deriving DecidableEq, Repr

/-- One entry of `PutRecordsOutput.Records`
(`types.PutRecordsResultEntry`): only the presence of `ErrorCode` is
inspected by the code, so only that field is modelled. -/
structure PutRecordsResultEntry where
  errorCode : Option String
deriving DecidableEq, Repr

/-- The shape of `kinesis.PutRecordsOutput` consumed by `putRecords`:
the optional `FailedRecordCount` (`*int32`, hence `Option Int`) and the
per-record result entries. -/
structure PutRecordsOutput where
  failedRecordCount : Option Int
  records : List PutRecordsResultEntry
deriving DecidableEq, Repr

/-- Errors produced by the flusher layer, mirroring the `fmt.Errorf`
values in `flusher.go`:
* `transport e` — the underlying client error;
* `wrapPut e` — a `failed to put records: %w` wrapper;
* `recordsFailed n` — `failed to put records: %d records are failed`. -/
inductive KWErr where
  | transport (e : TransErr)
  | wrapPut (e : KWErr)
  | recordsFailed (n : Nat)
deriving DecidableEq, Repr

/-- The remote client: given the index of the call within one `Flush`
(0 = initial attempt) and the submitted records, return either a
transport error or a `PutRecordsOutput`.  The call index stands in for
the client's internal state, so stateless and per-attempt-varying test
clients are both expressible. -/
abbrev Client := Nat → List Rec → Except TransErr PutRecordsOutput

/-- The failed-subset extraction loop of `flusher.putRecords`: for each
response entry with a non-nil `ErrorCode`, keep the submitted record at
the same index (Go iterates `for i, rr := range ret.Records` and appends
`records[i]`; for well-formed responses both lists have equal length). -/
def failedRecordsOf (records : List Rec) (entries : List PutRecordsResultEntry) : List Rec :=
  ((entries.zip records).filter (fun p => p.1.errorCode.isSome)).map (fun p => p.2)

/-- `flusher.putRecords` (`flusher.go` lines 59–87): submit the batch,
wrap a transport error, and otherwise compute the failed subset.  When
`FailedRecordCount` is nil or zero the per-record entries are not
inspected at all and the empty failed subset is returned.  The partition
keys generated per entry are opaque to all observed behaviour and are
omitted.  The response is passed in as the value the client returned for
this call. -/
def putRecords (resp : Except TransErr PutRecordsOutput) (records : List Rec) :
    Except KWErr (List Rec) :=
  match resp with
  | .error e => .error (.wrapPut (.transport e))
  | .ok ret =>
    if ret.failedRecordCount = none ∨ ret.failedRecordCount = some 0 then .ok []
    else .ok (failedRecordsOf records ret.records)

/-- `retry.Policy{MaxCount: 3}` in `flusher.Flush`: the retry loop body
runs at most 3 times after the initial attempt. -/
def retryMaxCount : Nat := 3

/-- The retry loop of `flusher.Flush` (`for retrier.Continue() { ... }`),
instrumented with the list of record batches submitted to the client.
`fuel` is the number of times `retrier.Continue` may still return true,
`idx` the index of the next remote call, `failed` the currently-failed
subset (non-empty on entry).  Each iteration re-submits exactly `failed`;
a transport error aborts immediately, an empty new failed subset breaks
out with success, and exhausting the fuel with a non-empty failed subset
yields the `recordsFailed` error with the count of undelivered records. -/
def flushRetry (client : Client) (idx : Nat) (fuel : Nat) (failed : List Rec) :
    List (List Rec) × Except KWErr Unit :=
  match fuel with
  | 0 =>
    ([], if failed.isEmpty then .ok () else .error (.recordsFailed failed.length))
  | f + 1 =>
    match putRecords (client idx failed) failed with
    | .error e => ([failed], .error (.wrapPut e))
    | .ok newFailed =>
      if newFailed.isEmpty then ([failed], .ok ())
      else
        let rest := flushRetry client (idx + 1) f newFailed
        (failed :: rest.1, rest.2)

/-- `flusher.Flush` (`flusher.go` lines 23–57), instrumented with the
trace of record batches handed to the remote client: the initial
`putRecords` on the whole batch, then (unless it'd reported zero failed
records or a transport error) the bounded retry loop on the failed
subset.  The context deadline (`flushTimeout`) and the retry delays only
affect real time, not which calls are made, and are not modelled. -/
def FlushTrace (client : Client) (records : List Rec) :
    List (List Rec) × Except KWErr Unit :=
  match putRecords (client 0 records) records with
  | .error e => ([records], .error (.wrapPut e))
  | .ok failed =>
    if failed.isEmpty then ([records], .ok ())
    else
      let rest := flushRetry client 1 retryMaxCount failed
      (records :: rest.1, rest.2)

/-- `flusher.Flush` proper: just the returned error. -/
def Flush (client : Client) (records : List Rec) : Except KWErr Unit :=
  (FlushTrace client records).2

/-- Result entries marking every odd-indexed (0-based) record as failed:
`odd` is the parity of the current index, so `oddFailEntries false recs`
assigns a non-nil `ErrorCode` exactly to the records at odd positions
(equivalent to the `i%2 != 0` test of `partialFailedKinesisClient` in
`writer_test.go`). -/
def oddFailEntries : Bool → List Rec → List PutRecordsResultEntry
  | _, [] => []
  | odd, _ :: rest =>
    { errorCode := if odd then some "error" else none } :: oddFailEntries (!odd) rest

/-- The `partialFailedKinesisClient` of `writer_test.go`: every
odd-indexed (0-based) record of each call is marked failed via a non-nil
`ErrorCode`, and `FailedRecordCount` is the number of such records. -/
def oddFailClient : Client := fun _ recs =>
  let entries := oddFailEntries false recs
  .ok { failedRecordCount := some (Int.ofNat (entries.countP (fun e => e.errorCode.isSome)))
        records := entries }

/-- A client for which every submitted record fails on every attempt. -/
def allFailClient : Client := fun _ recs =>
  .ok { failedRecordCount := some (Int.ofNat recs.length)
        records := recs.map (fun _ => { errorCode := some "error" }) }

/-- The `successKinesisClient` of `writer_test.go`: every record is
delivered (no `FailedRecordCount` in the response at all). -/
def successClient : Client := fun _ recs =>
  .ok { failedRecordCount := none
        records := recs.map (fun _ => { errorCode := none }) }

/-- A client whose calls all fail at the transport level. -/
def transFailClient : Client := fun _ _ => .error (.err "service unavailable")

/-- A client whose responses carry `FailedRecordCount = 0` while still
setting a per-record `ErrorCode` on every entry (an inconsistent but
syntactically valid response shape). -/
def zeroCountErrClient : Client := fun _ recs =>
  .ok { failedRecordCount := some 0
        records := recs.map (fun _ => { errorCode := some "InternalFailure" }) }

/-! ## Configuration surface (`options.go` and `New` in `writer.go`) -/

/-- `time.Duration`, in nanoseconds. -/
abbrev Duration := Int

/-- `time.Second` in nanoseconds. -/
def nsPerSecond : Duration := 1000000000

/-- The split function carried by the configuration (`bufio.SplitFunc`):
only its identity matters to the configuration claims, so it is a tag,
with `scanLines` standing for `bufio.ScanLines`. -/
inductive SplitFuncKind where
  | scanLines
  | scanWords
  | custom (id : Nat)
deriving DecidableEq, Repr

/-- The buffer error-handler callback, by identity: `stderrLogger`
stands for `defaultBufferErrorHandler` (which logs to stderr). -/
inductive ErrorHandlerKind where
  | stderrLogger
  | custom (id : Nat)
deriving DecidableEq, Repr

/-- The `bufferConfig` struct of `options.go`. -/
structure BufferConfig where
  recordWindow : Nat
  writeTimeout : Duration
  flushTimeout : Duration
  flushInterval : Duration
  errorHandler : ErrorHandlerKind
deriving DecidableEq, Repr

/-- The `writerConfig` struct of `options.go`; the injected Kinesis
client is tracked by identity (`none` = not injected, auto-resolved from
ambient AWS config by `New`). -/
structure WriterConfig where
  splitFunc : SplitFuncKind
  bufferConfig : BufferConfig
  client : Option Nat
deriving DecidableEq, Repr

/-- `defaultBufferRecordWindow` (`options.go`). -/
def defaultBufferRecordWindow : Nat := 10

/-- `defaultBufferWriteTimeout = 5 * time.Second`. -/
def defaultBufferWriteTimeout : Duration := 5 * nsPerSecond

/-- `defaultBufferFlushTimeout = 30 * time.Second`. -/
def defaultBufferFlushTimeout : Duration := 30 * nsPerSecond

/-- `defaultBufferFlushInterval = 30 * time.Second`. -/
def defaultBufferFlushInterval : Duration := 30 * nsPerSecond

/-- `WriterConfigOption`: a mutation of the configuration. -/
abbrev WriterConfigOption := WriterConfig → WriterConfig

/-- `WithSplitFunc`. -/
def WithSplitFunc (fn : SplitFuncKind) : WriterConfigOption :=
  fun c => { c with splitFunc := fn }

/-- `WithKinesisClient`. -/
def WithKinesisClient (client : Nat) : WriterConfigOption :=
  fun c => { c with client := some client }

/-- `WithBufferRecordWindow`. -/
def WithBufferRecordWindow (window : Nat) : WriterConfigOption :=
  fun c => { c with bufferConfig := { c.bufferConfig with recordWindow := window } }

/-- `WithBufferWriteTimeout`. -/
def WithBufferWriteTimeout (timeout : Duration) : WriterConfigOption :=
  fun c => { c with bufferConfig := { c.bufferConfig with writeTimeout := timeout } }

/-- `WithBufferFlushTimeout`. -/
def WithBufferFlushTimeout (timeout : Duration) : WriterConfigOption :=
  fun c => { c with bufferConfig := { c.bufferConfig with flushTimeout := timeout } }

/-- `WithBufferFlushInterval`. -/
def WithBufferFlushInterval (interval : Duration) : WriterConfigOption :=
  fun c => { c with bufferConfig := { c.bufferConfig with flushInterval := interval } }

/-- `WithBufferErrorHandler`. -/
def WithBufferErrorHandler (handler : ErrorHandlerKind) : WriterConfigOption :=
  fun c => { c with bufferConfig := { c.bufferConfig with errorHandler := handler } }

/-- The configuration built by `New` (`writer.go` lines 22–36): start
from the literal defaults of the `conf := &writerConfig{...}` initializer
and apply the options in order. -/
def newConfig (opts : List WriterConfigOption) : WriterConfig :=
  opts.foldl (fun c o => o c)
    { splitFunc := .scanLines
      bufferConfig :=
        { recordWindow := defaultBufferRecordWindow
          writeTimeout := defaultBufferWriteTimeout
          flushTimeout := defaultBufferFlushTimeout
          flushInterval := defaultBufferFlushInterval
          errorHandler := .stderrLogger }
      client := none }

/-! ## Splitter / ingress (`Writer.Write` with `bufio.ScanLines`) -/

/-- `dropCR` of `bufio` (used by `bufio.ScanLines`): drop a single
terminal carriage return (`\r`, byte 13), if present. -/
def dropCR (data : List Nat) : List Nat :=
  if data.getLast? = some 13 then data.dropLast else data

/-- Split a byte list at every newline byte (10): `n` newline bytes
yield `n + 1` segments (a trailing newline yields a trailing empty
segment, the empty input yields one empty segment). -/
def splitOnNL : List Nat → List (List Nat)
  | [] => [[]]
  | b :: rest =>
    if b = 10 then [] :: splitOnNL rest
    else
      match splitOnNL rest with
      | s :: t => (b :: s) :: t
      | [] => [[b]]

/-- The token sequence produced by a `bufio.Scanner` with
`bufio.ScanLines` when the whole input is drained: every
newline-delimited segment is a token with its trailing `\r` dropped,
except that a final empty segment (the input ended with a newline, or
was empty) produces no token — `Scan` stops at EOF with no data left. -/
def scanLines (p : List Nat) : List (List Nat) :=
  let segs := splitOnNL p
  (if segs.getLast? = some [] then segs.dropLast else segs).map dropCR

/-- Each record followed by the delimiter byte: the line-terminated
reading of "concatenating the records re-inserting the delimiter". -/
def reconstructTerminated : List Rec → List Nat
  | [] => []
  | r :: rs => r ++ 10 :: reconstructTerminated rs

/-- The records joined with the delimiter byte between them: the
separator reading of "concatenating the records re-inserting the
delimiter". -/
def reconstructSeparated : List Rec → List Nat
  | [] => []
  | [r] => r
  | r :: rs => r ++ 10 :: reconstructSeparated rs

/-! ## Writer surface (`Writer.Write`, `Writer.Sync` in `writer.go`) -/

/-- An error returned by the async buffer's `Write` (enqueue), as seen
by `Writer.Write`: the buffer is closed or the write timed out. -/
inductive BufErr where
  | closed
  | timeout
deriving DecidableEq, Repr

/-- An error returned by `Writer.Write`: the
`failed to write to buffer: %w` wrapper. -/
inductive WriteErr where
  | bufferWrite (e : BufErr)
deriving DecidableEq, Repr

/-- The scan loop of `Writer.Write`: forward each record to the buffer
enqueue `enq` in order; the first enqueue failure aborts the loop.
Returns the records successfully forwarded and the error, if any. -/
def writeGo (enq : Rec → Option BufErr) : List Rec → List Rec × Option WriteErr
  | [] => ([], none)
  | r :: rs =>
    match enq r with
    | some e => ([], some (.bufferWrite e))
    | none =>
      let rest := writeGo enq rs
      (r :: rest.1, rest.2)

/-- `Writer.Write` (`writer.go` lines 64–77) with the default split
function (`bufio.ScanLines`): split `p` into records, forward each to
the buffer enqueue `enq`; on the first enqueue failure return `0` bytes
consumed plus the wrapped error, otherwise return `len(p)` and nil.  The
result also carries the records actually forwarded, which Go performs as
a side effect on the buffer. -/
def Writer.write (enq : Rec → Option BufErr) (p : List Nat) :
    List Rec × Nat × Option WriteErr :=
  let res := writeGo enq (scanLines p)
  match res.2 with
  | some e => (res.1, 0, some e)
  | none => (res.1, p.length, none)

/-- `Writer.Sync` (`writer.go` lines 79–82): trigger the buffer flush
and return nil.  The Go body is `w.kinesisBuffer.Flush(); return nil` —
the outcome of the triggered flush (modelled by the argument) is
discarded, and the returned error is unconditionally nil. -/
def Writer.sync (_flushOutcome : Except KWErr Unit) : Option KWErr := none

/-! ## Helper lemmas -/

/-- The retry loop issues at most `fuel` remote calls. -/
theorem flushRetry_calls_length_le (c : Client) :
    ∀ (fuel idx : Nat) (failed : List Rec),
      ((flushRetry c idx fuel failed).1).length ≤ fuel := by
  intro fuel
  induction fuel with
  | zero =>
    intro idx failed
    simp [flushRetry]
  | succ f ih =>
    intro idx failed
    rw [flushRetry]
    cases putRecords (c idx failed) failed with
    | error e => simp
    | ok newFailed =>
      by_cases hnf : newFailed.isEmpty
      · simp [hnf]
      · simpa [hnf] using ih (idx + 1) newFailed

/-- When every response entry carries an error code, the failed subset
is the whole submitted batch. -/
theorem failedRecordsOf_allFail (recs : List Rec) :
    failedRecordsOf recs (List.replicate recs.length { errorCode := some "error" }) = recs := by
  induction recs with
  | nil => rfl
  | cons r rs ih =>
    simpa [failedRecordsOf, List.replicate_succ] using ih

/-- `putRecords` against `allFailClient` reports the whole non-empty
batch as failed. -/
theorem putRecords_allFail (idx : Nat) (recs : List Rec) (h : recs ≠ []) :
    putRecords (allFailClient idx recs) recs = .ok recs := by
  have hlen : recs.length ≠ 0 := by simpa using h
  simp [allFailClient, putRecords, failedRecordsOf_allFail, hlen, Int.ofNat_eq_zero]

/-- The retry loop against `allFailClient` burns all its fuel
re-submitting the same non-empty batch and ends with the
undelivered-count error. -/
theorem flushRetry_allFail (recs : List Rec) (h : recs ≠ []) :
    ∀ (fuel idx : Nat),
      flushRetry allFailClient idx fuel recs
        = (List.replicate fuel recs, .error (.recordsFailed recs.length)) := by
  intro fuel
  induction fuel with
  | zero =>
    intro idx
    simp [flushRetry, h]
  | succ f ih =>
    intro idx
    rw [flushRetry, putRecords_allFail idx recs h]
    simp [h, ih (idx + 1), List.replicate_succ]

/-! ## Claims about the flusher -/

/-- C1: against a remote client that marks every odd-indexed (0-based)
record of each attempt as failed, `Flush` on a 4-record batch submits
exactly `[r1,r2,r3,r4]`, then `[r2,r4]`, then `[r4]` (each retry the
currently-failed subset in original relative order) and succeeds; and
for every client and batch, at most `retryMaxCount = 3` retry calls
follow the initial call. -/
theorem claim_C1_odd_fail_retry_sequence (r1 r2 r3 r4 : Rec) :
    FlushTrace oddFailClient [r1, r2, r3, r4]
      = ([[r1, r2, r3, r4], [r2, r4], [r4]], .ok ())
    ∧ ∀ (c : Client) (recs : List Rec),
        ((FlushTrace c recs).1).length ≤ 1 + retryMaxCount := by
  refine ⟨rfl, ?_⟩
  intro c recs
  rw [FlushTrace]
  cases putRecords (c 0 recs) recs with
  | error e => simp
  | ok failed =>
    by_cases hf : failed.isEmpty
    · simp [hf]
    · have hle := flushRetry_calls_length_le c retryMaxCount 1 failed
      simp only [hf, if_false, List.length_cons, Bool.false_eq_true]
      omega

/-- C3 counterexample: `Flush` applied to the empty batch does issue a
remote `PutRecords` call (one call, with an empty record list) — the
code has no emptiness check. -/
theorem claim_C3_counterexample :
    (FlushTrace successClient []).1 = [[]]
    ∧ (FlushTrace successClient []).1 ≠ [] := by
  decide

/-- C3 (amended): `Flush` on the empty batch issues exactly one remote
call, carrying zero records, and returns success whenever that call
returns any successful response. -/
theorem claim_C3_empty_batch_one_empty_call (c : Client) (out : PutRecordsOutput)
    (h : c 0 [] = .ok out) :
    FlushTrace c [] = ([[]], .ok ()) := by
  rw [FlushTrace, h]
  by_cases hfc : out.failedRecordCount = none ∨ out.failedRecordCount = some 0
  · simp [putRecords, hfc]
  · simp [putRecords, hfc, failedRecordsOf]

/-- C3 witness: the amended statement at the all-success client. -/
theorem claim_C3_empty_batch_one_empty_call_witness :
    FlushTrace successClient [] = ([[]], .ok ()) :=
  claim_C3_empty_batch_one_empty_call successClient
    { failedRecordCount := none, records := [] } rfl

/-- C4: a transport/service-level failure of the bulk call is
propagated immediately as a (doubly) wrapped hard error, both on the
initial attempt and on any retry attempt, with no further remote
calls at this layer. -/
theorem claim_C4_transport_error_propagates (c : Client) (recs failed : List Rec)
    (idx fuel : Nat) (e : TransErr) :
    (c 0 recs = .error e →
      FlushTrace c recs = ([recs], .error (.wrapPut (.wrapPut (.transport e)))))
    ∧ (c idx failed = .error e →
      flushRetry c idx (fuel + 1) failed
        = ([failed], .error (.wrapPut (.wrapPut (.transport e))))) := by
  constructor
  · intro h
    simp [FlushTrace, putRecords, h]
  · intro h
    simp [flushRetry, putRecords, h]

/-- C4 witness: the transport-failing client on concrete batches, for
the initial attempt and for a retry attempt. -/
theorem claim_C4_transport_error_propagates_witness :
    FlushTrace transFailClient [[1]]
      = ([[[1]]], .error (.wrapPut (.wrapPut (.transport (.err "service unavailable")))))
    ∧ flushRetry transFailClient 1 1 [[2]]
      = ([[[2]]], .error (.wrapPut (.wrapPut (.transport (.err "service unavailable"))))) :=
  ⟨(claim_C4_transport_error_propagates transFailClient [[1]] [[2]] 1 0
      (.err "service unavailable")).1 rfl,
   (claim_C4_transport_error_propagates transFailClient [[1]] [[2]] 1 0
      (.err "service unavailable")).2 rfl⟩

/-- C5: when the initial remote call succeeds and the code's own
failed-subset computation reports zero failed records, `Flush` returns
success after exactly that one remote call. -/
theorem claim_C5_zero_failed_no_retry (c : Client) (recs : List Rec)
    (h : putRecords (c 0 recs) recs = .ok []) :
    FlushTrace c recs = ([recs], .ok ()) := by
  simp [FlushTrace, h]

/-- C5 witness: the all-success client on a concrete 2-record batch. -/
theorem claim_C5_zero_failed_no_retry_witness :
    FlushTrace successClient [[1], [2]] = ([[[1], [2]]], .ok ()) :=
  claim_C5_zero_failed_no_retry successClient [[1], [2]] rfl

/-- C6: exhausting the retry ladder with a non-empty failed subset
yields the hard error carrying the count of undelivered records: the
loop-exit step reports `recordsFailed failed.length`, and end-to-end a
client failing every record makes `Flush` return
`recordsFailed recs.length` after the initial call plus all 3 retries. -/
theorem claim_C6_exhausted_retries_error_count (c : Client) (idx : Nat)
    (failed recs : List Rec) (hf : failed ≠ []) (hr : recs ≠ []) :
    flushRetry c idx 0 failed = ([], .error (.recordsFailed failed.length))
    ∧ FlushTrace allFailClient recs
        = ([recs, recs, recs, recs], .error (.recordsFailed recs.length)) := by
  constructor
  · simp [flushRetry, hf]
  · rw [FlushTrace, putRecords_allFail 0 recs hr]
    simp [hr, flushRetry_allFail recs hr 3 1, retryMaxCount,
      List.replicate_succ]

/-- C6 witness: concrete exhausted ladders. -/
theorem claim_C6_exhausted_retries_error_count_witness :
    flushRetry successClient 5 0 [[9]] = ([], .error (.recordsFailed 1))
    ∧ FlushTrace allFailClient [[7]]
        = ([[[7]], [[7]], [[7]], [[7]]], .error (.recordsFailed 1)) :=
  ⟨(claim_C6_exhausted_retries_error_count successClient 5 [[9]] [[7]]
      (by decide) (by decide)).1,
   (claim_C6_exhausted_retries_error_count successClient 5 [[9]] [[7]]
      (by decide) (by decide)).2⟩

/-- C9: a successful response whose `FailedRecordCount` is nil or zero
makes `putRecords` report the empty failed subset whatever the
per-record error codes say, so `Flush` treats every record as delivered
and issues no retry call. -/
theorem claim_C9_zero_count_skips_error_codes (recs : List Rec)
    (fc : Option Int) (entries : List PutRecordsResultEntry)
    (h : fc = none ∨ fc = some 0) :
    putRecords (.ok { failedRecordCount := fc, records := entries }) recs = .ok []
    ∧ ∀ (c : Client),
        c 0 recs = .ok { failedRecordCount := fc, records := entries } →
        FlushTrace c recs = ([recs], .ok ()) := by
  have hp : putRecords (.ok { failedRecordCount := fc, records := entries }) recs
      = .ok [] := by
    rcases h with h | h <;> simp [putRecords, h]
  refine ⟨hp, fun c hc => ?_⟩
  rw [FlushTrace, hc, hp]
  simp

/-- C9 witness: a client answering `FailedRecordCount = 0` while setting
an `ErrorCode` on every entry; the record is treated as delivered and no
retry happens. -/
theorem claim_C9_zero_count_skips_error_codes_witness :
    putRecords
        (.ok { failedRecordCount := some 0
               records := [{ errorCode := some "InternalFailure" }] }) [[1]]
      = .ok []
    ∧ FlushTrace zeroCountErrClient [[1]] = ([[[1]]], .ok ()) :=
  ⟨(claim_C9_zero_count_skips_error_codes [[1]] (some 0)
      [{ errorCode := some "InternalFailure" }] (Or.inr rfl)).1,
   (claim_C9_zero_count_skips_error_codes [[1]] (some 0)
      [{ errorCode := some "InternalFailure" }] (Or.inr rfl)).2
      zeroCountErrClient rfl⟩

/-! ## Splitter lemmas -/

/-- Splitting always yields at least one segment. -/
theorem splitOnNL_ne_nil (p : List Nat) : splitOnNL p ≠ [] := by
  induction p with
  | nil => simp [splitOnNL]
  | cons b rest ih =>
    rw [splitOnNL]
    by_cases hb : b = 10
    · simp [hb]
    · simp only [hb, if_false]
      cases h : splitOnNL rest with
      | nil => simp
      | cons s t => simp

/-- Splitting a newline-free segment followed by a newline peels off
that segment. -/
theorem splitOnNL_append (r t : List Nat) (h : 10 ∉ r) :
    splitOnNL (r ++ 10 :: t) = r :: splitOnNL t := by
  induction r with
  | nil => simp [splitOnNL]
  | cons b r2 ih =>
    have hb : b ≠ 10 := fun hb => h (by simp [hb])
    have h2 : 10 ∉ r2 := fun hm => h (List.mem_cons_of_mem _ hm)
    rw [List.cons_append, splitOnNL]
    simp only [hb, if_false]
    rw [ih h2]

/-- Splitting a well-formed newline-terminated input recovers its
records plus the trailing empty segment. -/
theorem splitOnNL_reconstructTerminated (rs : List Rec) (h : ∀ r ∈ rs, 10 ∉ r) :
    splitOnNL (reconstructTerminated rs) = rs ++ [[]] := by
  induction rs with
  | nil => rfl
  | cons r t ih =>
    rw [reconstructTerminated, splitOnNL_append r _ (h r (by simp)),
      ih (fun x hx => h x (by simp [hx])), List.cons_append]

/-- `dropCR` is the identity on data without a trailing carriage
return. -/
theorem dropCR_eq_self (r : List Nat) (h : r.getLast? ≠ some 13) : dropCR r = r := by
  simp [dropCR, h]

/-- `bufio.ScanLines` recovers exactly the records of a well-formed
newline-terminated input (records free of newlines and of trailing
carriage returns). -/
theorem scanLines_reconstructTerminated (rs : List Rec)
    (h : ∀ r ∈ rs, 10 ∉ r ∧ r.getLast? ≠ some 13) :
    scanLines (reconstructTerminated rs) = rs := by
  simp only [scanLines, splitOnNL_reconstructTerminated rs (fun r hr => (h r hr).1)]
  rw [List.getLast?_concat, if_pos rfl, List.dropLast_concat]
  calc rs.map dropCR = rs.map id :=
        List.map_congr_left (fun x hx => dropCR_eq_self x (h x hx).2)
    _ = rs := List.map_id rs

/-! ## Writer lemmas -/

/-- When every enqueue succeeds, the write loop forwards every record
and reports no error. -/
theorem writeGo_all_ok (enq : Rec → Option BufErr) :
    ∀ rs : List Rec, (∀ r ∈ rs, enq r = none) → writeGo enq rs = (rs, none) := by
  intro rs
  induction rs with
  | nil => intro _; rfl
  | cons r t ih =>
    intro h
    rw [writeGo, h r (by simp)]
    simp [ih (fun x hx => h x (by simp [hx]))]

/-- When some enqueue fails, the write loop reports an error. -/
theorem writeGo_fail (enq : Rec → Option BufErr) :
    ∀ rs : List Rec, (∃ r ∈ rs, (enq r).isSome) → ((writeGo enq rs).2).isSome := by
  intro rs
  induction rs with
  | nil =>
    rintro ⟨r, hr, _⟩
    cases hr
  | cons r t ih =>
    rintro ⟨x, hx, hsome⟩
    rw [writeGo]
    cases he : enq r with
    | some e => simp
    | none =>
      rcases List.mem_cons.mp hx with rfl | hxt
      · rw [he] at hsome
        cases hsome
      · simpa using ih ⟨x, hxt, hsome⟩

/-! ## Claims about the writer surface -/

/-- C2 counterexample: a flush that fails (here, with the
undelivered-records error) still makes `Writer.Sync` return nil — the
Go body discards the flush outcome and returns nil unconditionally. -/
theorem claim_C2_counterexample :
    Writer.sync (Except.error (KWErr.recordsFailed 1)) = none := rfl

/-- C2 (amended): `Writer.Sync` triggers the buffer flush but returns
nil whatever the outcome of that flush; delivery errors surface only
through the configured error handler, never through `Sync`. -/
theorem claim_C2_sync_always_nil (outcome : Except KWErr Unit) :
    Writer.sync outcome = none := rfl

/-- C7 counterexample: for the input `"a\r\n"` (bytes `[97, 13, 10]`)
the single forwarded record is `"a"` — `bufio.ScanLines` drops the
carriage return — so concatenating the records re-inserting the
delimiter (in either the record-terminated or the record-separated
reading) does not reconstruct the original input. -/
theorem claim_C7_counterexample :
    scanLines [97, 13, 10] = [[97]]
    ∧ reconstructTerminated (scanLines [97, 13, 10]) ≠ [97, 13, 10]
    ∧ reconstructSeparated (scanLines [97, 13, 10]) ≠ [97, 13, 10] := by
  decide

/-- C7 (amended): for every input that is a concatenation of records
each terminated by the newline delimiter, where no record contains a
newline or ends in a carriage return, the records forwarded to the
buffer are exactly those records in submission order, concatenating
them re-inserting the delimiter reconstructs the original input, and
when every enqueue succeeds `Writer.Write` returns `(len(p), nil)`. -/
theorem claim_C7_split_roundtrip_wellformed (enq : Rec → Option BufErr)
    (rs : List Rec) (h : ∀ r ∈ rs, 10 ∉ r ∧ r.getLast? ≠ some 13) :
    scanLines (reconstructTerminated rs) = rs
    ∧ reconstructTerminated (scanLines (reconstructTerminated rs))
        = reconstructTerminated rs
    ∧ ((∀ r ∈ rs, enq r = none) →
        Writer.write enq (reconstructTerminated rs)
          = (rs, (reconstructTerminated rs).length, none)) := by
  have hs := scanLines_reconstructTerminated rs h
  refine ⟨hs, by rw [hs], fun henq => ?_⟩
  simp [Writer.write, hs, writeGo_all_ok enq rs henq]

/-- C7 witness: the amended statement at the two-record input
`"a\nb\n"`. -/
theorem claim_C7_split_roundtrip_wellformed_witness :
    scanLines (reconstructTerminated [[97], [98]]) = [[97], [98]]
    ∧ Writer.write (fun _ => none) (reconstructTerminated [[97], [98]])
        = ([[97], [98]], (reconstructTerminated [[97], [98]]).length, none) :=
  ⟨(claim_C7_split_roundtrip_wellformed (fun _ => none) [[97], [98]] (by decide)).1,
   (claim_C7_split_roundtrip_wellformed (fun _ => none) [[97], [98]] (by decide)).2.2
      (fun _ _ => rfl)⟩

/-- C8: the configuration built by `New` with no options has the
documented defaults: line-based splitting, record window 10, write
timeout 5s, flush timeout 30s, flush interval 30s, stderr-logging error
handler (and no injected client, so one is auto-resolved). -/
theorem claim_C8_default_config :
    newConfig [] =
      { splitFunc := .scanLines
        bufferConfig :=
          { recordWindow := 10
            writeTimeout := 5 * nsPerSecond
            flushTimeout := 30 * nsPerSecond
            flushInterval := 30 * nsPerSecond
            errorHandler := .stderrLogger }
        client := none } := rfl

/-- C10: whenever some record's enqueue into the buffer fails,
`Writer.Write` returns 0 bytes consumed together with a wrapped error
(even though the records before the failing one were already forwarded),
and whenever every enqueue succeeds it returns exactly `len(p)` with the
full record list forwarded. -/
theorem claim_C10_write_zero_on_enqueue_failure (enq : Rec → Option BufErr)
    (p : List Nat) :
    ((∃ r ∈ scanLines p, (enq r).isSome) →
      (Writer.write enq p).2.1 = 0 ∧ ((Writer.write enq p).2.2).isSome)
    ∧ ((∀ r ∈ scanLines p, enq r = none) →
      Writer.write enq p = (scanLines p, p.length, none)) := by
  constructor
  · intro hex
    have h2 := writeGo_fail enq (scanLines p) hex
    cases hres : (writeGo enq (scanLines p)).2 with
    | none =>
      rw [hres] at h2
      cases h2
    | some e => simp [Writer.write, hres]
  · intro hall
    simp [Writer.write, writeGo_all_ok enq (scanLines p) hall]

/-- C10 witness: input `"a\nb\nc"` against a buffer whose enqueue
rejects `"b"`: `Write` reports 0 bytes consumed and an error, while the
earlier record `"a"` was already forwarded. -/
theorem claim_C10_write_zero_on_enqueue_failure_witness :
    ((Writer.write (fun r => if r = [98] then some BufErr.closed else none)
        [97, 10, 98, 10, 99]).2.1 = 0
      ∧ ((Writer.write (fun r => if r = [98] then some BufErr.closed else none)
        [97, 10, 98, 10, 99]).2.2).isSome)
    ∧ (Writer.write (fun r => if r = [98] then some BufErr.closed else none)
        [97, 10, 98, 10, 99]).1 = [[97]] :=
  ⟨(claim_C10_write_zero_on_enqueue_failure
      (fun r => if r = [98] then some BufErr.closed else none)
      [97, 10, 98, 10, 99]).1 (by decide),
   by decide⟩

end KinesisWriter
